import Mathlib

/-!
# Tubely: video and thumbnail upload handlers

A shallow embedding of `handler_upload_video.go` and `handler_upload_thumbnail.go`.

* Go `int` is the 64-bit two's-complement integer: arithmetic is done in `Int` and wrapped
  by `wrapInt`; `/` truncates toward zero (`Int.tdiv`).
* A Go result pair `(value, error)` is a Lean pair whose second component is
  `Option String` (`none` is the nil error).
* Everything outside the two source files (HTTP request parsing, JWT validation, the
  operating system, the two media tools, the object store) is an explicit input:
  `Request` holds what the request resolves to and `Collab` holds the outcome of every
  external call of one run.
* A run of a handler is a function from the initial `World` to an `Exec`: the final
  world, the responses written, and the trace of external effects in call order.
-/

namespace Tubely

/-! ## Go integers -/

/-- Two's-complement wrap of a mathematical integer into the 64-bit Go `int` range. -/
def wrapInt (x : Int) : Int := (x + 2 ^ 63) % 2 ^ 64 - 2 ^ 63

/-- Go `a * b` on `int`. -/
def goMul (a b : Int) : Int := wrapInt (a * b)

/-- Go `a / b` on `int` (truncated toward zero). -/
def goDiv (a b : Int) : Int := wrapInt (Int.tdiv a b)

/-! ## Classifier (`getVideoAspectRatio` lines 186-194, `handlerUploadVideo` lines 102-109) -/

/-- The ratio test that ends `getVideoAspectRatio`:
`if width == 16*height/9 .. else if height == 16*width/9 .. ; return "other"`. -/
def ratioTest (width height : Int) : String :=
  if width = goDiv (goMul 16 height) 9 then "16:9"
  else if height = goDiv (goMul 16 width) 9 then "9:16"
  else "other"

/-- The `switch aspectRatio` of `handlerUploadVideo` that picks the key directory. -/
def directoryFor (aspectRatio : String) : String :=
  if aspectRatio = "16:9" then "landscape"
  else if aspectRatio = "9:16" then "portrait"
  else "other"

/-- The classifier: ratio test followed by the directory switch. -/
def classify (width height : Int) : String := directoryFor (ratioTest width height)

/-! ## Prober (`getVideoAspectRatio`) -/

/-- One entry of the `streams` array printed by the probing tool. Only video streams
carry `width` and `height`. -/
structure StreamEntry where
  codecType : String
  width : Option Int
  height : Option Int
  deriving DecidableEq, Repr

/-- The anonymous Go struct `struct { Width int; Height int }` the output is decoded into. -/
structure ProbeStream where
  Width : Int
  Height : Int
  deriving DecidableEq, Repr

/-- One run of the probing tool: exit status and standard output. `stdout = none` is
output that does not decode as the expected structure; `some l` is output whose
`streams` array is `l` (an absent `streams` key is `some []`). -/
structure ProbeRun where
  exitOk : Bool
  stdout : Option (List StreamEntry)
  deriving DecidableEq, Repr

/-- Decoding of one entry by `json.Unmarshal`: a key that is absent leaves the zero value. -/
def decodeStream (s : StreamEntry) : ProbeStream :=
  { Width := s.width.getD 0, Height := s.height.getD 0 }

/-- The `json.Unmarshal(stdout.Bytes(), &output)` call: `none` is a decoding error. -/
def jsonUnmarshal (stdout : Option (List StreamEntry)) : Option (List ProbeStream) :=
  stdout.map (fun l => l.map decodeStream)

/-- `getVideoAspectRatio(filePath)`; `ffprobe` gives the run of the tool on a path. -/
def getVideoAspectRatio (ffprobe : String → ProbeRun) (filePath : String) :
    String × Option String :=
  let run := ffprobe filePath
  if run.exitOk = false then ("", some "ffprobe error")
  else
    match jsonUnmarshal run.stdout with
    | none => ("", some "could not parse ffprobe output")
    | some streams =>
      match streams with
      | [] => ("", some "no video streams found")
      | s0 :: _ => (ratioTest s0.Width s0.Height, none)

/-! ## Local files -/

/-- The existing local files, each with its size in bytes. -/
abbrev Files := List (String × Nat)

/-- Removal of a path, as `os.Remove` does. -/
def osRemove (fs : Files) (path : String) : Files :=
  fs.filter (fun f => f.1 != path)

/-- Creation or replacement of the file at `path` with `size` bytes. -/
def writeFile (fs : Files) (path : String) (size : Nat) : Files :=
  (path, size) :: osRemove fs path

/-- Size reported by `os.Stat`; `none` when the file does not exist. -/
def osStat (fs : Files) (path : String) : Option Nat :=
  fs.lookup path

/-- Whether a file exists at `path`. -/
def fileExists (fs : Files) (path : String) : Bool :=
  (osStat fs path).isSome

/-! ## Remuxer (`processVideoForFastStart`) -/

/-- One run of the remux tool: exit status and the size of the file it left at the
output path (`none` when it left no file). -/
structure RemuxRun where
  exitOk : Bool
  output : Option Nat
  deriving DecidableEq, Repr

/-- Effect of the remux tool on the local files. -/
def runFfmpeg (run : RemuxRun) (outPath : String) (fs : Files) : Files :=
  match run.output with
  | some n => writeFile fs outPath n
  | none => fs

/-- `processVideoForFastStart(inputFilePath)`: the Go result pair and the local files
after the call. -/
def processVideoForFastStart (ffmpeg : String → RemuxRun) (inputFilePath : String)
    (fs : Files) : (String × Option String) × Files :=
  let processedFilePath := inputFilePath ++ ".processing"
  let run := ffmpeg inputFilePath
  let fs1 := runFfmpeg run processedFilePath fs
  if run.exitOk = false then (("", some "error processing video"), fs1)
  else
    match osStat fs1 processedFilePath with
    | none => (("", some "could not stat processed file"), fs1)
    | some size =>
      if size = 0 then (("", some "processed file is empty"), fs1)
      else ((processedFilePath, none), fs1)

/-! ## Metadata store -/

/-- A UUID in its canonical textual form. -/
abbrev UUID := String

/-- The all-zero UUID `uuid.Nil`, the zero value of the type. -/
def uuidNil : UUID := "00000000-0000-0000-0000-000000000000"

/-- Modelled from the spec: the record type `database.Video` is declared outside the two
source files; the spec lists its fields `id`, `ownerID`, `videoLocator`,
`thumbnailLocator`, named here as the handlers name them. -/
structure Video where
  ID : UUID
  UserID : UUID
  VideoURL : Option String
  ThumbnailURL : Option String
  deriving DecidableEq, Repr

/-- The Go zero value `database.Video{}`. -/
def Video.zero : Video :=
  { ID := uuidNil, UserID := uuidNil, VideoURL := none, ThumbnailURL := none }

/-- Modelled from the spec: `cfg.db.GetVideo` is declared outside the two source files;
the spec gives `get(videoID) -> VideoRecord | NotFound`. On `NotFound` the Go result pair
carries the zero record next to the error. -/
def GetVideo (videos : List Video) (id : UUID) : Video × Option String :=
  match videos.find? (fun v => v.ID == id) with
  | some v => (v, none)
  | none => (Video.zero, some "not found")

/-- Modelled from the spec: `cfg.db.UpdateVideo` is declared outside the two source files;
the spec gives `update(VideoRecord) -> () | StoreError`. `ok` is the outcome of the store
for this call; on success the record with the same id is replaced. -/
def UpdateVideo (videos : List Video) (ok : Bool) (video : Video) :
    List Video × Option String :=
  if ok then (videos.map (fun v => if v.ID = video.ID then video else v), none)
  else (videos, some "store error")

/-! ## Requests, collaborators, runs -/

/-- The entry of the in-memory thumbnail map. -/
structure Thumbnail where
  data : List Nat
  mediaType : String
  deriving DecidableEq, Repr

/-- A file part of the multipart form: its `Content-Type` header and its bytes. -/
structure FormFile where
  contentType : String
  data : List Nat
  deriving DecidableEq, Repr

/-- What one HTTP request resolves to. -/
structure Request where
  /-- The result of `uuid.Parse(r.PathValue("videoID"))`. -/
  videoID : Option UUID
  /-- The result of `auth.GetBearerToken(r.Header)`. -/
  bearerToken : Option String
  /-- The result of `r.FormFile(field)`. -/
  formFile : String → Option FormFile

/-- The fields of `apiConfig` the handlers read. -/
structure ApiConfig where
  jwtSecret : String
  s3Bucket : String
  port : String
  deriving DecidableEq, Repr

/-- The outcome of every external call of one run. -/
structure Collab where
  /-- The function `auth.ValidateJWT(token, secret)`. -/
  validateJWT : String → String → Option UUID
  /-- The function `mime.ParseMediaType`, media type only. -/
  parseMediaType : String → Option String
  /-- The result of `os.CreateTemp("", "tubely-upload.mp4")`: the name of the new file. -/
  createTemp : Option String
  /-- The result of `io.Copy(tempFile, file)`: bytes written and whether the error is nil. -/
  copy : Nat × Bool
  /-- Whether `tempFile.Seek(0, io.SeekStart)` succeeds. -/
  seekOk : Bool
  /-- The run of the probing tool on a path. -/
  ffprobe : String → ProbeRun
  /-- The run of the remux tool on an input path. -/
  ffmpeg : String → RemuxRun
  /-- The result of `getAssetPath(mediaType)`, declared outside the two source files. -/
  getAssetPath : String → String
  /-- The function `filepath.Join` on two elements. -/
  filepathJoin : String → String → String
  /-- Whether `os.Open(processedFilePath)` succeeds. -/
  openOk : Bool
  /-- Whether `cfg.s3Client.PutObject` succeeds. -/
  putOk : Bool
  /-- Whether `cfg.db.UpdateVideo` succeeds. -/
  updateOk : Bool
  /-- The result of `PresignGetObject` for bucket, key and expiry (nanoseconds). -/
  presign : String → String → Nat → Option String
  /-- Whether `io.ReadAll(file)` succeeds. -/
  readAllOk : Bool

/-- The state the handlers act on. -/
structure World where
  /-- Existing local files. -/
  files : Files
  /-- Records of the metadata store. -/
  videos : List Video
  /-- Published objects: bucket, key, content type. -/
  objects : List (String × String × String)
  /-- The global map `videoThumbnails`. -/
  videoThumbnails : List (UUID × Thumbnail)
  deriving DecidableEq, Repr

/-- A response written to the `http.ResponseWriter`. -/
inductive Response where
  | error (code : Nat) (msg : String)
  | json (code : Nat) (video : Video)
  deriving DecidableEq, Repr

/-- An external effect performed by a handler. -/
inductive Event where
  | createTemp (result : Option String)
  | copy (dst : String)
  | ffprobe (path : String)
  | ffmpeg (input : String)
  | putObject (bucket key contentType : String) (ok : Bool)
  | updateVideo (video : Video)
  | presign (bucket key : String) (expireTime : Nat)
  | storeThumbnail (id : UUID)
  deriving DecidableEq, Repr

/-- A run in progress: the world, the responses written and the effects so far. -/
structure Exec where
  world : World
  responses : List Response
  trace : List Event
  deriving DecidableEq, Repr

/-- Appends an effect to the trace. -/
def Exec.log (e : Exec) (ev : Event) : Exec :=
  { e with trace := e.trace ++ [ev] }

/-- Replaces the local files. -/
def Exec.setFiles (e : Exec) (fs : Files) : Exec :=
  { e with world := { e.world with files := fs } }

/-- Records a published object. -/
def Exec.addObject (e : Exec) (bucket key contentType : String) : Exec :=
  { e with world := { e.world with objects := (bucket, key, contentType) :: e.world.objects } }

/-- Replaces the records of the metadata store. -/
def Exec.setVideos (e : Exec) (videos : List Video) : Exec :=
  { e with world := { e.world with videos := videos } }

/-- Modelled from the spec: `respondWithError` is declared outside the two source files;
it writes one error response with the given status and message. -/
def respondWithError (e : Exec) (code : Nat) (msg : String) : Exec :=
  { e with responses := e.responses ++ [Response.error code msg] }

/-- Modelled from the spec: `respondWithJSON` is declared outside the two source files;
it writes one response with the given status and the record as payload. -/
def respondWithJSON (e : Exec) (code : Nat) (video : Video) : Exec :=
  { e with responses := e.responses ++ [Response.json code video] }

/-! ## Link signer (`dbVideoToSignedVideo`, `generatePresignedURL`) -/

/-- Go `strings.Split` on a one-character separator, on character lists. -/
def splitChars (sep : Char) : List Char → List (List Char)
  | [] => [[]]
  | c :: cs =>
    if c = sep then [] :: splitChars sep cs
    else
      match splitChars sep cs with
      | [] => [[c]]
      | p :: ps => (c :: p) :: ps

/-- Go `strings.Split(s, sep)` for a one-character separator. -/
def stringsSplit (s : String) (sep : Char) : List String :=
  (splitChars sep s.data).map String.mk

/-- Go `time.Minute`, in nanoseconds. -/
def timeMinute : Nat := 60 * 1000000000

/-- `generatePresignedURL(s3Client, bucket, key, expireTime)`. -/
def generatePresignedURL (c : Collab) (bucket key : String) (expireTime : Nat) :
    String × Option String :=
  match c.presign bucket key expireTime with
  | some url => (url, none)
  | none => ("", some "failed to generate presigned URL")

/-- `cfg.dbVideoToSignedVideo(video)`. -/
def dbVideoToSignedVideo (c : Collab) (video : Video) (e : Exec) :
    (Video × Option String) × Exec :=
  match video.VideoURL with
  | none => ((video, none), e)
  | some url =>
    match stringsSplit url ',' with
    | bucket :: key :: _ =>
      let e1 := e.log (Event.presign bucket key (5 * timeMinute))
      match generatePresignedURL c bucket key (5 * timeMinute) with
      | (_, some err) => ((video, some err), e1)
      | (presigned, none) => (({ video with VideoURL := some presigned }, none), e1)
    | _ => ((video, none), e)

/-! ## Orchestrator (`handlerUploadVideo`) -/

/-- Lines 121-154 of `handlerUploadVideo`: open the remuxed file, publish, persist, sign,
respond. -/
def publishProcessed (cfg : ApiConfig) (c : Collab) (video : Video) (mediaType key : String)
    (e : Exec) : Exec :=
  if c.openOk = false then respondWithError e 500 "Could not open processed file"
  else
    let e1 := e.log (Event.putObject cfg.s3Bucket key mediaType c.putOk)
    if c.putOk = false then respondWithError e1 500 "Couldn't upload to S3"
    else
      let e2 := e1.addObject cfg.s3Bucket key mediaType
      let url := cfg.s3Bucket ++ "," ++ key
      let video1 : Video := { video with VideoURL := some url }
      let e3 := e2.log (Event.updateVideo video1)
      match UpdateVideo e3.world.videos c.updateOk video1 with
      | (_, some _) => respondWithError e3 500 "Couldn't update video"
      | (videos, none) =>
        let e4 := e3.setVideos videos
        match dbVideoToSignedVideo c video1 e4 with
        | ((_, some _), e5) => respondWithError e5 500 "Couldn't generate presigned URL"
        | ((video2, none), e5) => respondWithJSON e5 200 video2

/-- Lines 88-119 of `handlerUploadVideo`: copy the upload into the staged file, probe,
classify, remux, then `publishProcessed` followed by the deferred
`os.Remove(processedFilePath)`. -/
def ingestStaged (cfg : ApiConfig) (c : Collab) (video : Video) (mediaType tempName : String)
    (e : Exec) : Exec :=
  -- `io.Copy(tempFile, file)`: both results are discarded
  let e1 := (e.log (Event.copy tempName)).setFiles (writeFile e.world.files tempName c.copy.1)
  if c.seekOk = false then respondWithError e1 500 "Couldn't reset file pointer"
  else
    let e2 := e1.log (Event.ffprobe tempName)
    match getVideoAspectRatio c.ffprobe tempName with
    | (_, some _) => respondWithError e2 500 "Error determining aspect ratio"
    | (aspectRatio, none) =>
      let directory := directoryFor aspectRatio
      let key := c.filepathJoin directory (c.getAssetPath mediaType)
      let e3 := e2.log (Event.ffmpeg tempName)
      match processVideoForFastStart c.ffmpeg tempName e3.world.files with
      | ((_, some _), fs) => respondWithError (e3.setFiles fs) 500 "Error processing video"
      | ((processedFilePath, none), fs) =>
        let e4 := publishProcessed cfg c video mediaType key (e3.setFiles fs)
        e4.setFiles (osRemove e4.world.files processedFilePath)

/-- `cfg.handlerUploadVideo(w, r)`. The `http.MaxBytesReader` wrapper only bounds what
`r.FormFile` and `io.Copy` read, so its effect is part of their outcomes; the deferred
`Close` calls do not touch the modelled state. -/
def handlerUploadVideo (cfg : ApiConfig) (r : Request) (c : Collab) (w : World) : Exec :=
  let e : Exec := { world := w, responses := [], trace := [] }
  match r.videoID with
  | none => respondWithError e 400 "Invalid ID"
  | some videoID =>
    match r.bearerToken with
    | none => respondWithError e 401 "Couldn't find JWT"
    | some token =>
      match c.validateJWT token cfg.jwtSecret with
      | none => respondWithError e 401 "Couldn't validate JWT"
      | some userID =>
        match GetVideo w.videos videoID with
        | (_, some _) => respondWithError e 400 "No video with the provided ID"
        | (video, none) =>
          if video.UserID ≠ userID then respondWithError e 401 "User doesn not own video"
          else
            match r.formFile "video" with
            | none => respondWithError e 400 "Couldn't get file from request"
            | some file =>
              match c.parseMediaType file.contentType with
              | none => respondWithError e 400 "Couldn't get media type"
              | some mediaType =>
                if mediaType ≠ "video/mp4" then respondWithError e 400 "Wrong media type"
                else
                  let e1 := e.log (Event.createTemp c.createTemp)
                  match c.createTemp with
                  | none => respondWithError e1 500 "Couldn't create temp file"
                  | some tempName =>
                    let e2 := e1.setFiles (writeFile e1.world.files tempName 0)
                    let e3 := ingestStaged cfg c video mediaType tempName e2
                    -- deferred `os.Remove(tempFile.Name())`
                    e3.setFiles (osRemove e3.world.files tempName)

/-! ## Thumbnail upload (`handlerUploadThumbnail`) -/

/-- Assignment `videoThumbnails[videoID] = t` on the global map. -/
def setThumbnail (m : List (UUID × Thumbnail)) (id : UUID) (t : Thumbnail) :
    List (UUID × Thumbnail) :=
  (id, t) :: m.filter (fun p => p.1 != id)

/-- `cfg.handlerUploadThumbnail(w, r)`. The `fmt.Println` call and the discarded result of
`r.ParseMultipartForm` do not touch the modelled state. -/
def handlerUploadThumbnail (cfg : ApiConfig) (r : Request) (c : Collab) (w : World) : Exec :=
  let e : Exec := { world := w, responses := [], trace := [] }
  match r.videoID with
  | none => respondWithError e 400 "Invalid ID"
  | some videoID =>
    match r.bearerToken with
    | none => respondWithError e 401 "Couldn't find JWT"
    | some token =>
      match c.validateJWT token cfg.jwtSecret with
      | none => respondWithError e 401 "Couldn't validate JWT"
      | some userID =>
        match r.formFile "thumbnail" with
        | none => respondWithError e 502 "Unable to parse form file"
        | some file =>
          let mediaType := file.contentType
          if c.readAllOk = false then respondWithError e 400 "Couldn't read data"
          else
            let imageData := file.data
            let got := GetVideo w.videos videoID
            let metaData := got.1
            -- the error branch writes a response and does not return
            let e1 :=
              match got.2 with
              | some _ => respondWithError e 400 "Couldn't get video from data"
              | none => e
            if userID ≠ metaData.UserID then
              respondWithError e1 401 "User doesn't own the video"
            else
              let newThumbnail : Thumbnail := { data := imageData, mediaType := mediaType }
              let e2 : Exec :=
                { (e1.log (Event.storeThumbnail videoID)) with world :=
                    { e1.world with videoThumbnails :=
                        setThumbnail e1.world.videoThumbnails videoID newThumbnail } }
              let thumbnailURL := "http://localhost:" ++ cfg.port ++ "/api/thumbnails/" ++ videoID
              let metaData1 : Video := { metaData with ThumbnailURL := some thumbnailURL }
              let e3 := e2.log (Event.updateVideo metaData1)
              match UpdateVideo e3.world.videos c.updateOk metaData1 with
              | (_, some _) => respondWithError e3 400 "Couldn't update video"
              | (videos, none) =>
                let e4 := e3.setVideos videos
                respondWithJSON e4 200 metaData1

/-! ## Trace predicates and intermediate runs -/

/-- Whether an effect is a call of the object store's put or of the metadata store's
update. -/
def Event.isStoreCall : Event → Bool
  | Event.putObject _ _ _ _ => true
  | Event.updateVideo _ => true
  | _ => false

/-- No effect of the list is a put or an update. -/
def quiet (evs : List Event) : Prop :=
  ∀ ev ∈ evs, ev.isStoreCall = false

/-- The three shapes the effects of a run `R` started from `e` can take with respect to
the two stores: no store call at all; a failed put as last effect; a successful put
directly followed by the only update. -/
def StoreOrder (e R : Exec) : Prop :=
  ∃ evs, R.trace = e.trace ++ evs ∧
    ((quiet evs ∧ R.world.videos = e.world.videos) ∨
     (∃ pre b k ct, evs = pre ++ [Event.putObject b k ct false] ∧ quiet pre ∧
        R.world.videos = e.world.videos ∧
        R.responses = e.responses ++ [Response.error 500 "Couldn't upload to S3"]) ∨
     (∃ pre post b k ct v,
        evs = pre ++ Event.putObject b k ct true :: Event.updateVideo v :: post ∧
        quiet pre ∧ quiet post))

/-- The record `handlerUploadVideo` hands to `UpdateVideo`: `video` with the raw locator
`bucket,key`. -/
def locatorRecord (cfg : ApiConfig) (video : Video) (key : String) : Video :=
  { video with VideoURL := some (cfg.s3Bucket ++ "," ++ key) }

/-- The run after a successful put and the call of `UpdateVideo`. -/
def afterPut (cfg : ApiConfig) (video : Video) (mediaType key : String) (e : Exec) : Exec :=
  (((e.log (Event.putObject cfg.s3Bucket key mediaType true)).addObject
      cfg.s3Bucket key mediaType).log (Event.updateVideo (locatorRecord cfg video key)))

/-- The run after a successful put and a successful update. -/
def afterUpdate (cfg : ApiConfig) (video : Video) (mediaType key : String) (e : Exec) : Exec :=
  (afterPut cfg video mediaType key e).setVideos
    (e.world.videos.map
      (fun v => if v.ID = video.ID then locatorRecord cfg video key else v))

/-- The run after `io.Copy` into the staged file. -/
def afterCopy (c : Collab) (tempName : String) (e : Exec) : Exec :=
  (e.log (Event.copy tempName)).setFiles (writeFile e.world.files tempName c.copy.1)

/-- The run after the probing tool and the remux tool have run. -/
def afterRemux (c : Collab) (tempName : String) (e : Exec) : Exec :=
  (((afterCopy c tempName e).log (Event.ffprobe tempName)).log (Event.ffmpeg tempName)).setFiles
    (processVideoForFastStart c.ffmpeg tempName (afterCopy c tempName e).world.files).2

/-- The object key `handlerUploadVideo` computes for the staged file. -/
def objectKey (c : Collab) (mediaType tempName : String) : String :=
  c.filepathJoin (directoryFor (getVideoAspectRatio c.ffprobe tempName).1)
    (c.getAssetPath mediaType)

/-- The run after `os.CreateTemp` has created the staged file. -/
def afterCreate (w : World) (tempName : String) : Exec :=
  { world := { w with files := writeFile w.files tempName 0 }
    responses := []
    trace := [Event.createTemp (some tempName)] }

/-! ## Sample run -/

/-- A configuration. -/
def sampleConfig : ApiConfig :=
  { jwtSecret := "secret", s3Bucket := "tubely-media", port := "8091" }

/-- The owner of `sampleVideo`. -/
def sampleOwner : UUID := "7f3c1a52-0000-4000-8000-000000000001"

/-- Another user. -/
def sampleOther : UUID := "7f3c1a52-0000-4000-8000-000000000002"

/-- A stored record without locators. -/
def sampleVideo : Video :=
  { ID := "0b7e9d11-0000-4000-8000-0000000000aa", UserID := sampleOwner,
    VideoURL := none, ThumbnailURL := none }

/-- A world with one record and no local files. -/
def sampleWorld : World :=
  { files := [], videos := [sampleVideo], objects := [], videoThumbnails := [] }

/-- A request for `sampleVideo` carrying a token and both form files. -/
def sampleRequest : Request :=
  { videoID := some sampleVideo.ID
    bearerToken := some "token"
    formFile := fun field =>
      if field = "video" then some { contentType := "video/mp4", data := [0, 0, 0, 32] }
      else if field = "thumbnail" then some { contentType := "image/png", data := [137, 80] }
      else none }

/-- A request for a video id that has no record. -/
def unknownVideoRequest : Request :=
  { sampleRequest with videoID := some "0b7e9d11-0000-4000-8000-0000000000bb" }

/-- Collaborators that all succeed, for a 1920x1080 upload by the owner. -/
def sampleCollab : Collab :=
  { validateJWT := fun _ _ => some sampleOwner
    parseMediaType := fun s => some s
    createTemp := some "/tmp/tubely-upload.mp4123"
    copy := (4, true)
    seekOk := true
    ffprobe := fun _ =>
      { exitOk := true
        stdout := some [{ codecType := "video", width := some 1920, height := some 1080 }] }
    ffmpeg := fun _ => { exitOk := true, output := some 4 }
    getAssetPath := fun _ => "q83z.mp4"
    filepathJoin := fun a b => a ++ "/" ++ b
    openOk := true
    putOk := true
    updateOk := true
    presign := fun b k _ => some ("https://" ++ b ++ ".s3.example/" ++ k ++ "?sig")
    readAllOk := true }

/-! ## Theorems: classifier -/

theorem wrapInt_of_inRange (x : Int) (hlo : -(2 ^ 63) ≤ x) (hhi : x < 2 ^ 63) :
    wrapInt x = x := by
  unfold wrapInt
  omega

theorem goDiv_nine (a : Int) (h0 : 0 ≤ a) (h1 : a < 2 ^ 63) :
    goDiv a 9 = a / 9 := by
  unfold goDiv
  rw [Int.tdiv_eq_ediv h0 (by decide)]
  apply wrapInt_of_inRange <;> omega

theorem scaled_ratio (x : Int) (h0 : 0 ≤ x) (h1 : 16 * x < 2 ^ 63) :
    goDiv (goMul 16 x) 9 = 16 * x / 9 := by
  unfold goMul
  rw [wrapInt_of_inRange _ (by omega) h1]
  exact goDiv_nine _ (by omega) h1

/-- Without overflow the ratio test compares against the floor of `16 * x / 9`. -/
theorem ratioTest_of_inRange (w h : Int) (hw : 0 ≤ w) (hh : 0 ≤ h)
    (hw1 : 16 * w < 2 ^ 63) (hh1 : 16 * h < 2 ^ 63) :
    ratioTest w h =
      if w = 16 * h / 9 then "16:9" else if h = 16 * w / 9 then "9:16" else "other" := by
  unfold ratioTest
  rw [scaled_ratio h hh hh1, scaled_ratio w hw hw1]

theorem directoryFor_eq_other (s : String) :
    directoryFor s = "other" ↔ s ≠ "16:9" ∧ s ≠ "9:16" := by
  unfold directoryFor
  split
  · simp_all
  · split
    · simp_all
    · simp_all

/-- C1: for every positive `k` with `16*16*k` inside the int range, geometry `(16k, 9k)`
is classified "16:9" / directory "landscape" and geometry `(9k, 16k)` is classified
"9:16" / directory "portrait". -/
theorem classify_exact_ratio (k : Int) (hk : 0 < k) (hr : 16 * 16 * k < 2 ^ 63) :
    ratioTest (16 * k) (9 * k) = "16:9" ∧ classify (16 * k) (9 * k) = "landscape" ∧
    ratioTest (9 * k) (16 * k) = "9:16" ∧ classify (9 * k) (16 * k) = "portrait" := by
  have h1 : ratioTest (16 * k) (9 * k) = "16:9" := by
    rw [ratioTest_of_inRange _ _ (by omega) (by omega) (by omega) (by omega)]
    rw [if_pos (by omega)]
  have h2 : ratioTest (9 * k) (16 * k) = "9:16" := by
    rw [ratioTest_of_inRange _ _ (by omega) (by omega) (by omega) (by omega)]
    rw [if_neg (by omega), if_pos (by omega)]
  refine ⟨h1, ?_, h2, ?_⟩
  · unfold classify; rw [h1]; decide
  · unfold classify; rw [h2]; decide

/-- C1 at `k = 120`: `(1920, 1080)` is landscape and `(1080, 1920)` is portrait. -/
theorem classify_exact_ratio_witness :
    (0 : Int) < 120 ∧ (16 * 16 * 120 : Int) < 2 ^ 63 ∧
    ratioTest 1920 1080 = "16:9" ∧ classify 1920 1080 = "landscape" ∧
    ratioTest 1080 1920 = "9:16" ∧ classify 1080 1920 = "portrait" :=
  ⟨by decide, by decide, classify_exact_ratio 120 (by decide) (by decide)⟩

/-- C2 as stated fails: `(17, 10)` is not in an exact 16:9 or 9:16 ratio, yet
`17 == 16*10/9` holds in truncating integer division and the pair is classified
landscape. -/
theorem classify_inexact_pair_landscape :
    ¬ ((0 : Int) ≤ 17 → (0 : Int) ≤ 10 → (9 : Int) * 17 ≠ 16 * 10 → (9 : Int) * 10 ≠ 16 * 17 →
        classify 17 10 = "other") := by
  decide

/-- C2 amended: for non-negative `(w, h)` with `16*w` and `16*h` inside the int range,
the classifier returns "other" exactly when neither `0 ≤ 16*h - 9*w ≤ 8` (that is,
`w = ⌊16*h/9⌋`) nor `0 ≤ 16*w - 9*h ≤ 8` (that is, `h = ⌊16*w/9⌋`). -/
theorem classify_other_iff (w h : Int) (hw : 0 ≤ w) (hh : 0 ≤ h)
    (hw1 : 16 * w < 2 ^ 63) (hh1 : 16 * h < 2 ^ 63) :
    classify w h = "other" ↔
      ¬ (0 ≤ 16 * h - 9 * w ∧ 16 * h - 9 * w ≤ 8) ∧
      ¬ (0 ≤ 16 * w - 9 * h ∧ 16 * w - 9 * h ≤ 8) := by
  unfold classify
  rw [directoryFor_eq_other, ratioTest_of_inRange w h hw hh hw1 hh1]
  by_cases h1 : w = 16 * h / 9
  · rw [if_pos h1]
    constructor
    · intro hc; exact absurd rfl hc.1
    · intro hc; omega
  · rw [if_neg h1]
    by_cases h2 : h = 16 * w / 9
    · rw [if_pos h2]
      constructor
      · intro hc; exact absurd rfl hc.2
      · intro hc; omega
    · rw [if_neg h2]
      constructor
      · intro _; omega
      · intro _; decide

/-- C2 amended at `(1920, 1088)`: the pair is classified "other". -/
theorem classify_other_iff_witness :
    (0 : Int) ≤ 1920 ∧ (0 : Int) ≤ 1088 ∧ (16 * 1920 : Int) < 2 ^ 63 ∧
    (16 * 1088 : Int) < 2 ^ 63 ∧ classify 1920 1088 = "other" :=
  ⟨by decide, by decide, by decide, by decide,
    (classify_other_iff 1920 1088 (by decide) (by decide) (by decide) (by decide)).2
      (by decide)⟩

/-! ## Theorems: prober and remuxer -/

/-- The prober fails when the tool exits non-zero, when its output does not decode, and
when the stream list is empty. -/
theorem getVideoAspectRatio_errors (ffprobe : String → ProbeRun) (filePath : String)
    (h : (ffprobe filePath).exitOk = false ∨ (ffprobe filePath).stdout = none ∨
      (ffprobe filePath).stdout = some []) :
    (getVideoAspectRatio ffprobe filePath).2 ≠ none ∧
    (getVideoAspectRatio ffprobe filePath).1 = "" := by
  unfold getVideoAspectRatio
  cases hx : (ffprobe filePath).exitOk
  · simp [hx]
  · rcases h with h | h | h
    · simp [hx] at h
    · simp [hx, h, jsonUnmarshal]
    · simp [hx, h, jsonUnmarshal]

/-- The prober succeeds exactly when the tool exits zero and the decoded stream list is
not empty, whatever the kind of its first stream. -/
theorem getVideoAspectRatio_ok_iff (ffprobe : String → ProbeRun) (filePath : String) :
    (getVideoAspectRatio ffprobe filePath).2 = none ↔
      (ffprobe filePath).exitOk = true ∧
      ∃ s0 rest, (ffprobe filePath).stdout = some (s0 :: rest) := by
  unfold getVideoAspectRatio
  cases hx : (ffprobe filePath).exitOk
  · simp [hx]
  · cases hs : (ffprobe filePath).stdout with
    | none => simp [hx, hs, jsonUnmarshal]
    | some l =>
      cases l with
      | nil => simp [hx, hs, jsonUnmarshal]
      | cons s0 rest => simp [hx, hs, jsonUnmarshal]

/-- C8 fails on the code: for output that lists a single audio stream (no video stream,
no width or height) the prober returns the classification "16:9" and a nil error. -/
theorem getVideoAspectRatio_audio_only :
    getVideoAspectRatio
      (fun _ => { exitOk := true,
                  stdout := some [{ codecType := "audio", width := none, height := none }] })
      "/tmp/tubely-upload.mp4123" = ("16:9", none) := by
  decide

theorem osStat_writeFile (fs : Files) (path : String) (n : Nat) :
    osStat (writeFile fs path n) path = some n := by
  simp [osStat, writeFile, List.lookup]

/-- C9: the remuxer returns a nil error exactly when the tool exited zero and the file
`<input>.processing` exists with size greater than zero; on success the returned path is
the input path followed by ".processing"; when the tool leaves a zero-byte file the
remuxer returns an error and the empty path. -/
theorem processVideoForFastStart_success_iff (ffmpeg : String → RemuxRun)
    (inputFilePath : String) (fs : Files) :
    ((processVideoForFastStart ffmpeg inputFilePath fs).1.2 = none ↔
      (ffmpeg inputFilePath).exitOk = true ∧
      ∃ n, 0 < n ∧
        osStat (processVideoForFastStart ffmpeg inputFilePath fs).2
          (inputFilePath ++ ".processing") = some n) ∧
    ((processVideoForFastStart ffmpeg inputFilePath fs).1.2 = none →
      (processVideoForFastStart ffmpeg inputFilePath fs).1.1 =
        inputFilePath ++ ".processing") ∧
    ((ffmpeg inputFilePath).output = some 0 →
      (processVideoForFastStart ffmpeg inputFilePath fs).1.2 ≠ none ∧
      (processVideoForFastStart ffmpeg inputFilePath fs).1.1 = "") := by
  unfold processVideoForFastStart
  cases hx : (ffmpeg inputFilePath).exitOk
  · simp [hx]
  · cases hs : osStat (runFfmpeg (ffmpeg inputFilePath) (inputFilePath ++ ".processing") fs)
        (inputFilePath ++ ".processing") with
    | none =>
      refine ⟨by simp [hx, hs], by simp [hx, hs], ?_⟩
      intro ho
      simp [runFfmpeg, ho, osStat_writeFile] at hs
    | some size =>
      by_cases hz : size = 0
      · simp [hx, hs, hz]
      · refine ⟨by simp [hx, hs, hz]; omega, by simp [hx, hs, hz], ?_⟩
        intro ho
        simp [runFfmpeg, ho, osStat_writeFile] at hs
        omega

/-- C9 at a run that exits zero and leaves a zero-byte file: error and empty path. -/
theorem processVideoForFastStart_success_iff_witness :
    (processVideoForFastStart (fun _ => { exitOk := true, output := some 0 })
        "/tmp/tubely-upload.mp4123" []).1.2 ≠ none ∧
    (processVideoForFastStart (fun _ => { exitOk := true, output := some 0 })
        "/tmp/tubely-upload.mp4123" []).1.1 = "" :=
  (processVideoForFastStart_success_iff (fun _ => { exitOk := true, output := some 0 })
    "/tmp/tubely-upload.mp4123" []).2.2 rfl

/-! ## Theorems: link signer -/

theorem splitChars_of_not_mem (sep : Char) (l : List Char) (h : sep ∉ l) :
    splitChars sep l = [l] := by
  induction l with
  | nil => rfl
  | cons a l ih =>
    have ha : a ≠ sep := fun hc => h (by simp [hc])
    have hl : sep ∉ l := fun hc => h (by simp [hc])
    simp [splitChars, ha, ih hl]

theorem splitChars_append_sep (sep : Char) (l r : List Char) (h : sep ∉ l) :
    splitChars sep (l ++ sep :: r) = l :: splitChars sep r := by
  induction l with
  | nil => simp [splitChars]
  | cons a l ih =>
    have ha : a ≠ sep := fun hc => h (by simp [hc])
    have hl : sep ∉ l := fun hc => h (by simp [hc])
    simp [splitChars, ha, ih hl]

/-- Splitting the locator `bucket,key` gives back bucket and key when neither holds a
comma. -/
theorem stringsSplit_locator (bucket key : String)
    (hb : ',' ∉ bucket.data) (hk : ',' ∉ key.data) :
    stringsSplit (bucket ++ "," ++ key) ',' = [bucket, key] := by
  have hd : (bucket ++ "," ++ key).data = bucket.data ++ ',' :: key.data := by
    simp [String.data_append]
  unfold stringsSplit
  rw [hd, splitChars_append_sep _ _ _ hb, splitChars_of_not_mem _ _ hk]
  rfl

theorem dbVideoToSignedVideo_locator (c : Collab) (video : Video) (e : Exec)
    (bucket key : String) (hb : ',' ∉ bucket.data) (hk : ',' ∉ key.data)
    (hurl : video.VideoURL = some (bucket ++ "," ++ key)) :
    dbVideoToSignedVideo c video e =
      match c.presign bucket key (5 * timeMinute) with
      | some url =>
        (({ video with VideoURL := some url }, none),
          e.log (Event.presign bucket key (5 * timeMinute)))
      | none =>
        ((video, some "failed to generate presigned URL"),
          e.log (Event.presign bucket key (5 * timeMinute))) := by
  unfold dbVideoToSignedVideo generatePresignedURL
  rw [hurl]
  simp only [stringsSplit_locator bucket key hb hk]
  cases c.presign bucket key (5 * timeMinute) <;> rfl

/-- Signing changes neither the world nor the responses and logs presign effects only. -/
theorem dbVideoToSignedVideo_frame (c : Collab) (video : Video) (e : Exec) :
    (dbVideoToSignedVideo c video e).2.world = e.world ∧
    (dbVideoToSignedVideo c video e).2.responses = e.responses ∧
    ∃ post, (dbVideoToSignedVideo c video e).2.trace = e.trace ++ post ∧
      ∀ ev ∈ post, ∃ b k t, ev = Event.presign b k t := by
  unfold dbVideoToSignedVideo generatePresignedURL
  cases video.VideoURL with
  | none => exact ⟨rfl, rfl, [], by simp, by simp⟩
  | some url =>
    rcases hs : stringsSplit url ',' with _ | ⟨b, _ | ⟨k, tl⟩⟩
    · exact ⟨by simp [hs], by simp [hs], [], by simp [hs], by simp⟩
    · exact ⟨by simp [hs], by simp [hs], [], by simp [hs], by simp⟩
    · cases hp : c.presign b k (5 * timeMinute) <;>
        exact ⟨by simp [hs, hp, Exec.log], by simp [hs, hp, Exec.log],
          [Event.presign b k (5 * timeMinute)], by simp [hs, hp, Exec.log], by simp⟩

/-! ## Theorems: orchestrator, stage by stage -/

theorem publishProcessed_open_fail (cfg : ApiConfig) (c : Collab) (video : Video)
    (mediaType key : String) (e : Exec) (h : c.openOk = false) :
    publishProcessed cfg c video mediaType key e =
      respondWithError e 500 "Could not open processed file" := by
  simp [publishProcessed, h]

theorem publishProcessed_put_fail (cfg : ApiConfig) (c : Collab) (video : Video)
    (mediaType key : String) (e : Exec) (h1 : c.openOk = true) (h2 : c.putOk = false) :
    publishProcessed cfg c video mediaType key e =
      respondWithError (e.log (Event.putObject cfg.s3Bucket key mediaType false)) 500
        "Couldn't upload to S3" := by
  simp [publishProcessed, h1, h2]

theorem publishProcessed_update_fail (cfg : ApiConfig) (c : Collab) (video : Video)
    (mediaType key : String) (e : Exec) (h1 : c.openOk = true) (h2 : c.putOk = true)
    (h3 : c.updateOk = false) :
    publishProcessed cfg c video mediaType key e =
      respondWithError (afterPut cfg video mediaType key e) 500 "Couldn't update video" := by
  simp [publishProcessed, h1, h2, h3, UpdateVideo, afterPut, locatorRecord]

theorem publishProcessed_updated (cfg : ApiConfig) (c : Collab) (video : Video)
    (mediaType key : String) (e : Exec) (h1 : c.openOk = true) (h2 : c.putOk = true)
    (h3 : c.updateOk = true) :
    publishProcessed cfg c video mediaType key e =
      match dbVideoToSignedVideo c (locatorRecord cfg video key)
          (afterUpdate cfg video mediaType key e) with
      | ((_, some _), e5) => respondWithError e5 500 "Couldn't generate presigned URL"
      | ((video2, none), e5) => respondWithJSON e5 200 video2 := by
  simp [publishProcessed, h1, h2, h3, UpdateVideo, afterUpdate, afterPut, locatorRecord,
    Exec.log, Exec.addObject, Exec.setVideos]

theorem ingestStaged_seek_fail (cfg : ApiConfig) (c : Collab) (video : Video)
    (mediaType tempName : String) (e : Exec) (h : c.seekOk = false) :
    ingestStaged cfg c video mediaType tempName e =
      respondWithError (afterCopy c tempName e) 500 "Couldn't reset file pointer" := by
  simp [ingestStaged, h, afterCopy]

theorem ingestStaged_probe_fail (cfg : ApiConfig) (c : Collab) (video : Video)
    (mediaType tempName : String) (e : Exec) (h1 : c.seekOk = true)
    (h2 : (getVideoAspectRatio c.ffprobe tempName).2 ≠ none) :
    ingestStaged cfg c video mediaType tempName e =
      respondWithError ((afterCopy c tempName e).log (Event.ffprobe tempName)) 500
        "Error determining aspect ratio" := by
  rcases hg : getVideoAspectRatio c.ffprobe tempName with ⟨a, _ | err⟩
  · simp [hg] at h2
  · simp [ingestStaged, h1, hg, afterCopy]

theorem ingestStaged_remux_fail (cfg : ApiConfig) (c : Collab) (video : Video)
    (mediaType tempName : String) (e : Exec) (h1 : c.seekOk = true)
    (h2 : (getVideoAspectRatio c.ffprobe tempName).2 = none)
    (h3 : (processVideoForFastStart c.ffmpeg tempName
      (afterCopy c tempName e).world.files).1.2 ≠ none) :
    ingestStaged cfg c video mediaType tempName e =
      respondWithError (afterRemux c tempName e) 500 "Error processing video" := by
  rcases hg : getVideoAspectRatio c.ffprobe tempName with ⟨a, _ | err⟩
  · rcases hp : processVideoForFastStart c.ffmpeg tempName
        (afterCopy c tempName e).world.files with ⟨⟨p, _ | perr⟩, fs⟩
    · simp [hp] at h3
    · simp only [afterCopy, Exec.log, Exec.setFiles] at hp
      simp [ingestStaged, h1, hg, hp, afterRemux, afterCopy, Exec.log, Exec.setFiles]
  · simp [hg] at h2

theorem ingestStaged_remuxed (cfg : ApiConfig) (c : Collab) (video : Video)
    (mediaType tempName : String) (e : Exec) (h1 : c.seekOk = true)
    (h2 : (getVideoAspectRatio c.ffprobe tempName).2 = none)
    (h3 : (processVideoForFastStart c.ffmpeg tempName
      (afterCopy c tempName e).world.files).1.2 = none) :
    ingestStaged cfg c video mediaType tempName e =
      (publishProcessed cfg c video mediaType (objectKey c mediaType tempName)
          (afterRemux c tempName e)).setFiles
        (osRemove
          (publishProcessed cfg c video mediaType (objectKey c mediaType tempName)
            (afterRemux c tempName e)).world.files
          (processVideoForFastStart c.ffmpeg tempName
            (afterCopy c tempName e).world.files).1.1) := by
  rcases hg : getVideoAspectRatio c.ffprobe tempName with ⟨a, _ | err⟩
  · rcases hp : processVideoForFastStart c.ffmpeg tempName
        (afterCopy c tempName e).world.files with ⟨⟨p, _ | perr⟩, fs⟩
    · simp only [afterCopy, Exec.log, Exec.setFiles] at hp
      simp [ingestStaged, h1, hg, hp, afterRemux, afterCopy, objectKey, Exec.log,
        Exec.setFiles]
    · simp [hp] at h3
  · simp [hg] at h2

/-- The outcomes of `handlerUploadVideo`: either the request is turned down before any
file is staged, with the world untouched and at most a failed `os.CreateTemp` in the
trace, or the staged file `tempName` is created, ingested and removed. -/
theorem handlerUploadVideo_cases (cfg : ApiConfig) (r : Request) (c : Collab) (w : World) :
    (∃ code msg tr, (tr = [] ∨ tr = [Event.createTemp none]) ∧
      handlerUploadVideo cfg r c w =
        { world := w, responses := [Response.error code msg], trace := tr }) ∨
    (∃ videoID token video file tempName,
      r.videoID = some videoID ∧ r.bearerToken = some token ∧
      c.validateJWT token cfg.jwtSecret = some video.UserID ∧
      GetVideo w.videos videoID = (video, none) ∧
      r.formFile "video" = some file ∧
      c.parseMediaType file.contentType = some "video/mp4" ∧
      c.createTemp = some tempName ∧
      handlerUploadVideo cfg r c w =
        (ingestStaged cfg c video "video/mp4" tempName (afterCreate w tempName)).setFiles
          (osRemove
            (ingestStaged cfg c video "video/mp4" tempName (afterCreate w tempName)).world.files
            tempName)) := by
  cases h1 : r.videoID with
  | none => exact Or.inl ⟨400, "Invalid ID", [], by simp,
      by simp [handlerUploadVideo, h1, respondWithError]⟩
  | some videoID =>
  cases h2 : r.bearerToken with
  | none => exact Or.inl ⟨401, "Couldn't find JWT", [], by simp,
      by simp [handlerUploadVideo, h1, h2, respondWithError]⟩
  | some token =>
  cases h3 : c.validateJWT token cfg.jwtSecret with
  | none => exact Or.inl ⟨401, "Couldn't validate JWT", [], by simp,
      by simp [handlerUploadVideo, h1, h2, h3, respondWithError]⟩
  | some userID =>
  rcases h4 : GetVideo w.videos videoID with ⟨video, _ | err⟩
  swap
  · exact Or.inl ⟨400, "No video with the provided ID", [], by simp,
      by simp [handlerUploadVideo, h1, h2, h3, h4, respondWithError]⟩
  by_cases h5 : video.UserID = userID
  swap
  · exact Or.inl ⟨401, "User doesn not own video", [], by simp,
      by simp [handlerUploadVideo, h1, h2, h3, h4, h5, respondWithError]⟩
  cases h6 : r.formFile "video" with
  | none => exact Or.inl ⟨400, "Couldn't get file from request", [], by simp,
      by simp [handlerUploadVideo, h1, h2, h3, h4, h5, h6, respondWithError]⟩
  | some file =>
  cases h7 : c.parseMediaType file.contentType with
  | none => exact Or.inl ⟨400, "Couldn't get media type", [], by simp,
      by simp [handlerUploadVideo, h1, h2, h3, h4, h5, h6, h7, respondWithError]⟩
  | some mediaType =>
  by_cases h8 : mediaType = "video/mp4"
  swap
  · exact Or.inl ⟨400, "Wrong media type", [], by simp,
      by simp [handlerUploadVideo, h1, h2, h3, h4, h5, h6, h7, h8, respondWithError]⟩
  cases h9 : c.createTemp with
  | none => exact Or.inl ⟨500, "Couldn't create temp file", [Event.createTemp none], by simp,
      by simp [handlerUploadVideo, h1, h2, h3, h4, h5, h6, h7, h8, h9, respondWithError,
        Exec.log]⟩
  | some tempName =>
  subst h5 h8
  refine Or.inr ⟨videoID, token, video, file, tempName, rfl, rfl, h3, h4, rfl, h7, rfl, ?_⟩
  simp [handlerUploadVideo, h1, h2, h3, h4, h6, h7, h9, afterCreate, Exec.log, Exec.setFiles]

/-! ## Theorems: order of the store calls -/

theorem quiet_nil : quiet [] := by
  intro ev h
  simp at h

theorem quiet_append (l1 l2 : List Event) (h1 : quiet l1) (h2 : quiet l2) :
    quiet (l1 ++ l2) := by
  intro ev h
  rcases List.mem_append.1 h with h | h
  · exact h1 ev h
  · exact h2 ev h

theorem quiet_of_presign (post : List Event)
    (h : ∀ ev ∈ post, ∃ b k t, ev = Event.presign b k t) : quiet post := by
  intro ev hev
  obtain ⟨b, k, t, rfl⟩ := h ev hev
  rfl

theorem StoreOrder_error (e e1 : Exec) (pre : List Event) (code : Nat) (msg : String)
    (ht : e1.trace = e.trace ++ pre) (hq : quiet pre)
    (hv : e1.world.videos = e.world.videos) :
    StoreOrder e (respondWithError e1 code msg) :=
  ⟨pre, by simp [respondWithError, ht], Or.inl ⟨hq, by simp [respondWithError, hv]⟩⟩

theorem StoreOrder_setFiles (e R : Exec) (fs : Files) (h : StoreOrder e R) :
    StoreOrder e (R.setFiles fs) := by
  obtain ⟨evs, ht, h⟩ := h
  exact ⟨evs, by simpa [Exec.setFiles] using ht, by simpa [Exec.setFiles] using h⟩

theorem StoreOrder_extend (e e1 R : Exec) (pre0 : List Event)
    (ht : e1.trace = e.trace ++ pre0) (hq : quiet pre0)
    (hv : e1.world.videos = e.world.videos) (hr : e1.responses = e.responses)
    (h : StoreOrder e1 R) : StoreOrder e R := by
  obtain ⟨evs, hR, h⟩ := h
  refine ⟨pre0 ++ evs, by rw [hR, ht, List.append_assoc], ?_⟩
  rcases h with ⟨hq1, hv1⟩ | ⟨pre, b, k, ct, he, hq1, hv1, hr1⟩ | ⟨pre, post, b, k, ct, v, he, hq1, hq2⟩
  · exact Or.inl ⟨quiet_append _ _ hq hq1, by rw [hv1, hv]⟩
  · exact Or.inr (Or.inl ⟨pre0 ++ pre, b, k, ct, by rw [he, List.append_assoc],
      quiet_append _ _ hq hq1, by rw [hv1, hv], by rw [hr1, hr]⟩)
  · exact Or.inr (Or.inr ⟨pre0 ++ pre, post, b, k, ct, v, by rw [he, List.append_assoc],
      quiet_append _ _ hq hq1, hq2⟩)

theorem StoreOrder_publishProcessed (cfg : ApiConfig) (c : Collab) (video : Video)
    (mediaType key : String) (e : Exec) :
    StoreOrder e (publishProcessed cfg c video mediaType key e) := by
  cases h1 : c.openOk
  · rw [publishProcessed_open_fail cfg c video mediaType key e h1]
    exact StoreOrder_error e e [] _ _ (by simp) quiet_nil rfl
  cases h2 : c.putOk
  · rw [publishProcessed_put_fail cfg c video mediaType key e h1 h2]
    exact ⟨[Event.putObject cfg.s3Bucket key mediaType false],
      by simp [respondWithError, Exec.log],
      Or.inr (Or.inl ⟨[], cfg.s3Bucket, key, mediaType, by simp, quiet_nil,
        by simp [respondWithError, Exec.log], by simp [respondWithError, Exec.log]⟩)⟩
  cases h3 : c.updateOk
  · rw [publishProcessed_update_fail cfg c video mediaType key e h1 h2 h3]
    exact ⟨[Event.putObject cfg.s3Bucket key mediaType true,
        Event.updateVideo (locatorRecord cfg video key)],
      by simp [respondWithError, afterPut, Exec.log, Exec.addObject],
      Or.inr (Or.inr ⟨[], [], cfg.s3Bucket, key, mediaType, locatorRecord cfg video key,
        by simp, quiet_nil, quiet_nil⟩)⟩
  · rw [publishProcessed_updated cfg c video mediaType key e h1 h2 h3]
    obtain ⟨_, _, post, hp, hq⟩ := dbVideoToSignedVideo_frame c (locatorRecord cfg video key)
      (afterUpdate cfg video mediaType key e)
    refine ⟨Event.putObject cfg.s3Bucket key mediaType true ::
        Event.updateVideo (locatorRecord cfg video key) :: post, ?_,
      Or.inr (Or.inr ⟨[], post, cfg.s3Bucket, key, mediaType, locatorRecord cfg video key,
        by simp, quiet_nil, quiet_of_presign post hq⟩)⟩
    rcases hd : dbVideoToSignedVideo c (locatorRecord cfg video key)
      (afterUpdate cfg video mediaType key e) with ⟨⟨v2, _ | err⟩, e5⟩
    · rw [hd] at hp
      simp only [respondWithJSON]
      simp only [] at hp
      rw [hp]
      simp [afterUpdate, afterPut, Exec.log, Exec.addObject, Exec.setVideos]
    · rw [hd] at hp
      simp only [respondWithError]
      simp only [] at hp
      rw [hp]
      simp [afterUpdate, afterPut, Exec.log, Exec.addObject, Exec.setVideos]

theorem StoreOrder_ingestStaged (cfg : ApiConfig) (c : Collab) (video : Video)
    (mediaType tempName : String) (e : Exec) :
    StoreOrder e (ingestStaged cfg c video mediaType tempName e) := by
  cases h1 : c.seekOk
  · rw [ingestStaged_seek_fail cfg c video mediaType tempName e h1]
    exact StoreOrder_error e _ [Event.copy tempName] _ _
      (by simp [afterCopy, Exec.log, Exec.setFiles])
      (by intro ev h; simp at h; subst h; rfl)
      (by simp [afterCopy, Exec.log, Exec.setFiles])
  cases h2 : (getVideoAspectRatio c.ffprobe tempName).2 with
  | some err =>
    rw [ingestStaged_probe_fail cfg c video mediaType tempName e h1 (by simp [h2])]
    exact StoreOrder_error e _ [Event.copy tempName, Event.ffprobe tempName] _ _
      (by simp [afterCopy, Exec.log, Exec.setFiles])
      (by intro ev h; simp at h; rcases h with h | h <;> subst h <;> rfl)
      (by simp [afterCopy, Exec.log, Exec.setFiles])
  | none =>
    have hq : quiet [Event.copy tempName, Event.ffprobe tempName, Event.ffmpeg tempName] := by
      intro ev h
      simp at h
      rcases h with h | h | h <;> subst h <;> rfl
    cases h3 : (processVideoForFastStart c.ffmpeg tempName
        (afterCopy c tempName e).world.files).1.2 with
    | some err =>
      rw [ingestStaged_remux_fail cfg c video mediaType tempName e h1 h2 (by simp [h3])]
      exact StoreOrder_error e _ _ _ _
        (by simp [afterRemux, afterCopy, Exec.log, Exec.setFiles]) hq
        (by simp [afterRemux, afterCopy, Exec.log, Exec.setFiles])
    | none =>
      rw [ingestStaged_remuxed cfg c video mediaType tempName e h1 h2 h3]
      apply StoreOrder_setFiles
      exact StoreOrder_extend e (afterRemux c tempName e) _ _
        (by simp [afterRemux, afterCopy, Exec.log, Exec.setFiles]) hq
        (by simp [afterRemux, afterCopy, Exec.log, Exec.setFiles])
        (by simp [afterRemux, afterCopy, Exec.log, Exec.setFiles])
        (StoreOrder_publishProcessed cfg c video mediaType _ _)

theorem StoreOrder_handlerUploadVideo (cfg : ApiConfig) (r : Request) (c : Collab)
    (w : World) :
    StoreOrder { world := w, responses := [], trace := [] } (handlerUploadVideo cfg r c w) := by
  rcases handlerUploadVideo_cases cfg r c w with
    ⟨code, msg, tr, htr, hR⟩ | ⟨videoID, token, video, file, tempName, -, -, -, -, -, -, -, hR⟩
  · rw [hR]
    refine ⟨tr, by simp, Or.inl ⟨?_, rfl⟩⟩
    rcases htr with rfl | rfl
    · exact quiet_nil
    · intro ev h
      simp at h
      subst h
      rfl
  · rw [hR]
    apply StoreOrder_setFiles
    exact StoreOrder_extend _ (afterCreate w tempName) _ [Event.createTemp (some tempName)]
      (by simp [afterCreate]) (by intro ev h; simp at h; subst h; rfl)
      (by simp [afterCreate]) (by simp [afterCreate])
      (StoreOrder_ingestStaged cfg c video "video/mp4" tempName _)

theorem not_mem_of_quiet_put (evs : List Event) (h : quiet evs) (b k ct : String) (ok : Bool) :
    Event.putObject b k ct ok ∉ evs := by
  intro hm
  have := h _ hm
  simp [Event.isStoreCall] at this

theorem not_mem_of_quiet_update (evs : List Event) (h : quiet evs) (v : Video) :
    Event.updateVideo v ∉ evs := by
  intro hm
  have := h _ hm
  simp [Event.isStoreCall] at this

/-- C5: in `handlerUploadVideo` the update of the metadata store is invoked only after
the put has returned success. In a run without a successful put, `UpdateVideo` is not
called and the stored records are unchanged; in a run whose put failed the handler
answers 500 "Couldn't upload to S3"; and every call of `UpdateVideo` directly follows a
successful put and is the only update of the run. -/
theorem handlerUploadVideo_update_after_put (cfg : ApiConfig) (r : Request) (c : Collab)
    (w : World) :
    ((∀ b k ct, Event.putObject b k ct true ∉ (handlerUploadVideo cfg r c w).trace) →
      (∀ v, Event.updateVideo v ∉ (handlerUploadVideo cfg r c w).trace) ∧
      (handlerUploadVideo cfg r c w).world.videos = w.videos) ∧
    ((∃ b k ct, Event.putObject b k ct false ∈ (handlerUploadVideo cfg r c w).trace) →
      (handlerUploadVideo cfg r c w).responses =
        [Response.error 500 "Couldn't upload to S3"] ∧
      (∀ v, Event.updateVideo v ∉ (handlerUploadVideo cfg r c w).trace) ∧
      (handlerUploadVideo cfg r c w).world.videos = w.videos) ∧
    (∀ v, Event.updateVideo v ∈ (handlerUploadVideo cfg r c w).trace →
      ∃ pre post b k ct,
        (handlerUploadVideo cfg r c w).trace =
          pre ++ Event.putObject b k ct true :: Event.updateVideo v :: post ∧
        (∀ v1, Event.updateVideo v1 ∉ pre) ∧ (∀ v1, Event.updateVideo v1 ∉ post)) := by
  obtain ⟨evs, ht, h⟩ := StoreOrder_handlerUploadVideo cfg r c w
  simp only [List.nil_append] at ht h
  rw [ht]
  rcases h with ⟨hq, hv⟩ | ⟨pre, b, k, ct, he, hq, hv, hr⟩ |
    ⟨pre, post, b, k, ct, v, he, hq1, hq2⟩
  · refine ⟨fun _ => ⟨not_mem_of_quiet_update evs hq, hv⟩, ?_, ?_⟩
    · rintro ⟨b, k, ct, hm⟩
      exact absurd hm (not_mem_of_quiet_put evs hq b k ct false)
    · intro v hm
      exact absurd hm (not_mem_of_quiet_update evs hq v)
  · have hu : ∀ v, Event.updateVideo v ∉ evs := by
      intro v hm
      rw [he] at hm
      rcases List.mem_append.1 hm with hm | hm
      · exact not_mem_of_quiet_update pre hq v hm
      · simp at hm
    exact ⟨fun _ => ⟨hu, hv⟩, fun _ => ⟨hr, hu, hv⟩, fun v hm => absurd hm (hu v)⟩
  · refine ⟨?_, ?_, ?_⟩
    · intro hno
      exact absurd (by rw [he]; simp) (hno b k ct)
    · rintro ⟨b1, k1, ct1, hm⟩
      rw [he] at hm
      rcases List.mem_append.1 hm with hm | hm
      · exact absurd hm (not_mem_of_quiet_put pre hq1 b1 k1 ct1 false)
      · simp at hm
        exact absurd hm (not_mem_of_quiet_put post hq2 b1 k1 ct1 false)
    · intro v1 hm
      rw [he] at hm
      rcases List.mem_append.1 hm with hm | hm
      · exact absurd hm (not_mem_of_quiet_update pre hq1 v1)
      · simp at hm
        rcases hm with rfl | hm
        · exact ⟨pre, post, b, k, ct, he, not_mem_of_quiet_update pre hq1,
            not_mem_of_quiet_update post hq2⟩
        · exact absurd hm (not_mem_of_quiet_update post hq2 v1)

/-- C5 at the sample run whose put fails: 500 "Couldn't upload to S3", no update, records
unchanged. -/
theorem handlerUploadVideo_update_after_put_witness :
    (handlerUploadVideo sampleConfig sampleRequest { sampleCollab with putOk := false }
        sampleWorld).responses = [Response.error 500 "Couldn't upload to S3"] ∧
    (∀ v, Event.updateVideo v ∉
      (handlerUploadVideo sampleConfig sampleRequest { sampleCollab with putOk := false }
        sampleWorld).trace) ∧
    (handlerUploadVideo sampleConfig sampleRequest { sampleCollab with putOk := false }
        sampleWorld).world.videos = sampleWorld.videos :=
  (handlerUploadVideo_update_after_put sampleConfig sampleRequest
    { sampleCollab with putOk := false } sampleWorld).2.1
    ⟨"tubely-media", "landscape/q83z.mp4", "video/mp4", by decide⟩

/-- C4: when the video id resolves to a record whose owner differs from the
authenticated identity, the handler answers 401, performs no external effect (no
temporary file, no tool run, no put, no update) and leaves the world unchanged. -/
theorem handlerUploadVideo_not_owner (cfg : ApiConfig) (r : Request) (c : Collab) (w : World)
    (videoID : UUID) (token : String) (userID : UUID) (video : Video)
    (hid : r.videoID = some videoID) (htok : r.bearerToken = some token)
    (hjwt : c.validateJWT token cfg.jwtSecret = some userID)
    (hget : GetVideo w.videos videoID = (video, none))
    (hown : video.UserID ≠ userID) :
    (handlerUploadVideo cfg r c w).responses =
      [Response.error 401 "User doesn not own video"] ∧
    (handlerUploadVideo cfg r c w).trace = [] ∧
    (handlerUploadVideo cfg r c w).world = w := by
  simp [handlerUploadVideo, hid, htok, hjwt, hget, hown, respondWithError]

/-- C4 at the sample request sent by a user who is not the owner. -/
theorem handlerUploadVideo_not_owner_witness :
    (handlerUploadVideo sampleConfig sampleRequest
        { sampleCollab with validateJWT := fun _ _ => some sampleOther } sampleWorld).responses =
      [Response.error 401 "User doesn not own video"] ∧
    (handlerUploadVideo sampleConfig sampleRequest
        { sampleCollab with validateJWT := fun _ _ => some sampleOther } sampleWorld).trace = [] ∧
    (handlerUploadVideo sampleConfig sampleRequest
        { sampleCollab with validateJWT := fun _ _ => some sampleOther } sampleWorld).world =
      sampleWorld :=
  handlerUploadVideo_not_owner sampleConfig sampleRequest
    { sampleCollab with validateJWT := fun _ _ => some sampleOther } sampleWorld
    sampleVideo.ID "token" sampleOther sampleVideo rfl rfl rfl (by decide) (by decide)

/-! ## Theorems: the locator written and the link returned -/

theorem publishProcessed_json (cfg : ApiConfig) (c : Collab) (video : Video)
    (mediaType key : String) (e : Exec) (v : Video)
    (h : (publishProcessed cfg c video mediaType key e).responses =
      e.responses ++ [Response.json 200 v]) :
    (dbVideoToSignedVideo c (locatorRecord cfg video key)
      (afterUpdate cfg video mediaType key e)).1 = (v, none) ∧
    publishProcessed cfg c video mediaType key e =
      respondWithJSON (dbVideoToSignedVideo c (locatorRecord cfg video key)
        (afterUpdate cfg video mediaType key e)).2 200 v := by
  cases h1 : c.openOk
  · rw [publishProcessed_open_fail cfg c video mediaType key e h1] at h
    simp [respondWithError] at h
  cases h2 : c.putOk
  · rw [publishProcessed_put_fail cfg c video mediaType key e h1 h2] at h
    simp [respondWithError, Exec.log] at h
  cases h3 : c.updateOk
  · rw [publishProcessed_update_fail cfg c video mediaType key e h1 h2 h3] at h
    simp [respondWithError, afterPut, Exec.log, Exec.addObject] at h
  rw [publishProcessed_updated cfg c video mediaType key e h1 h2 h3] at h ⊢
  obtain ⟨-, hr, -⟩ := dbVideoToSignedVideo_frame c (locatorRecord cfg video key)
    (afterUpdate cfg video mediaType key e)
  rcases hd : dbVideoToSignedVideo c (locatorRecord cfg video key)
    (afterUpdate cfg video mediaType key e) with ⟨⟨v2, _ | err⟩, e5⟩
  · rw [hd] at h hr
    simp only [] at hr
    simp [respondWithJSON, hr, afterUpdate, afterPut, Exec.log, Exec.addObject,
      Exec.setVideos] at h
    simp [h]
  · rw [hd] at h hr
    simp only [] at hr
    simp [respondWithError, hr, afterUpdate, afterPut, Exec.log, Exec.addObject,
      Exec.setVideos] at h

theorem ingestStaged_json (cfg : ApiConfig) (c : Collab) (video : Video)
    (mediaType tempName : String) (e : Exec) (v : Video)
    (h : (ingestStaged cfg c video mediaType tempName e).responses =
      e.responses ++ [Response.json 200 v]) :
    (publishProcessed cfg c video mediaType (objectKey c mediaType tempName)
      (afterRemux c tempName e)).responses =
        (afterRemux c tempName e).responses ++ [Response.json 200 v] ∧
    (ingestStaged cfg c video mediaType tempName e).trace =
      (publishProcessed cfg c video mediaType (objectKey c mediaType tempName)
        (afterRemux c tempName e)).trace ∧
    (ingestStaged cfg c video mediaType tempName e).world.videos =
      (publishProcessed cfg c video mediaType (objectKey c mediaType tempName)
        (afterRemux c tempName e)).world.videos := by
  cases h1 : c.seekOk
  · rw [ingestStaged_seek_fail cfg c video mediaType tempName e h1] at h
    simp [respondWithError, afterCopy, Exec.log, Exec.setFiles] at h
  cases h2 : (getVideoAspectRatio c.ffprobe tempName).2 with
  | some err =>
    rw [ingestStaged_probe_fail cfg c video mediaType tempName e h1 (by simp [h2])] at h
    simp [respondWithError, afterCopy, Exec.log, Exec.setFiles] at h
  | none =>
    cases h3 : (processVideoForFastStart c.ffmpeg tempName
        (afterCopy c tempName e).world.files).1.2 with
    | some err =>
      rw [ingestStaged_remux_fail cfg c video mediaType tempName e h1 h2 (by simp [h3])] at h
      simp [respondWithError, afterRemux, afterCopy, Exec.log, Exec.setFiles] at h
    | none =>
      rw [ingestStaged_remuxed cfg c video mediaType tempName e h1 h2 h3] at h ⊢
      refine ⟨?_, by simp [Exec.setFiles], by simp [Exec.setFiles]⟩
      simpa [Exec.setFiles, afterRemux, afterCopy, Exec.log] using h

theorem mem_of_GetVideo (videos : List Video) (id : UUID) (video : Video)
    (h : GetVideo videos id = (video, none)) : video ∈ videos := by
  unfold GetVideo at h
  cases hf : videos.find? (fun v => v.ID == id) with
  | none => simp [hf] at h
  | some v0 =>
    simp [hf] at h
    subst h
    exact List.mem_of_find?_eq_some hf

/-- C7 as stated fails: with the bucket "tubely,media" the run succeeds, yet the link
returned is the one signed for bucket "tubely" and key "media", and no link is signed for
the configured bucket and the computed key "landscape/q83z.mp4". -/
theorem handlerUploadVideo_comma_bucket :
    ¬ (∀ v : Video,
        (handlerUploadVideo { sampleConfig with s3Bucket := "tubely,media" } sampleRequest
          sampleCollab sampleWorld).responses = [Response.json 200 v] →
        Event.presign "tubely,media" "landscape/q83z.mp4" (5 * timeMinute) ∈
          (handlerUploadVideo { sampleConfig with s3Bucket := "tubely,media" } sampleRequest
            sampleCollab sampleWorld).trace ∧
        v.VideoURL =
          sampleCollab.presign "tubely,media" "landscape/q83z.mp4" (5 * timeMinute)) := by
  intro h
  have h1 := (h { sampleVideo with VideoURL := some "https://tubely.s3.example/media?sig" }
    (by decide)).2
  revert h1
  decide

/-- C7 amended: in a run that answers 200 with record `v` and that put the object under
key `K`, where neither the configured bucket nor `K` holds a comma, the put went to the
configured bucket and succeeded, the record handed to `UpdateVideo` and stored carries
the raw locator `bucket,K`, the only link signed is the one for exactly that bucket, `K`
and five minutes, and `v` is that record with the signed link as its locator. -/
theorem handlerUploadVideo_success_locator (cfg : ApiConfig) (r : Request) (c : Collab)
    (w : World) (v : Video) (b K ct : String) (ok : Bool)
    (hok : (handlerUploadVideo cfg r c w).responses = [Response.json 200 v])
    (hput : Event.putObject b K ct ok ∈ (handlerUploadVideo cfg r c w).trace)
    (hB : ',' ∉ cfg.s3Bucket.data) (hK : ',' ∉ K.data) :
    b = cfg.s3Bucket ∧ ok = true ∧
    ∃ stored url,
      stored.VideoURL = some (cfg.s3Bucket ++ "," ++ K) ∧
      Event.updateVideo stored ∈ (handlerUploadVideo cfg r c w).trace ∧
      stored ∈ (handlerUploadVideo cfg r c w).world.videos ∧
      c.presign cfg.s3Bucket K (5 * timeMinute) = some url ∧
      (∀ b1 k1 t1, Event.presign b1 k1 t1 ∈ (handlerUploadVideo cfg r c w).trace ↔
        (b1 = cfg.s3Bucket ∧ k1 = K ∧ t1 = 5 * timeMinute)) ∧
      v = { stored with VideoURL := some url } := by
  rcases handlerUploadVideo_cases cfg r c w with
    ⟨code, msg, tr, -, hR⟩ |
    ⟨videoID, token, video, file, tempName, -, -, -, hget, -, -, -, hR⟩
  · rw [hR] at hok
    simp at hok
  rw [hR] at hok hput ⊢
  simp only [Exec.setFiles] at hok hput ⊢
  obtain ⟨hP, htr, hvid⟩ := ingestStaged_json cfg c video "video/mp4" tempName
    (afterCreate w tempName) v (by simpa [afterCreate] using hok)
  obtain ⟨hs1, hPeq⟩ := publishProcessed_json cfg c video "video/mp4"
    (objectKey c "video/mp4" tempName) (afterRemux c tempName (afterCreate w tempName)) v hP
  rw [htr, hPeq] at hput
  rw [htr, hvid, hPeq]
  obtain ⟨hw, -, post, hpost, hq⟩ := dbVideoToSignedVideo_frame c
    (locatorRecord cfg video (objectKey c "video/mp4" tempName))
    (afterUpdate cfg video "video/mp4" (objectKey c "video/mp4" tempName)
      (afterRemux c tempName (afterCreate w tempName)))
  have hkey : b = cfg.s3Bucket ∧ K = objectKey c "video/mp4" tempName ∧ ok = true := by
    simp only [respondWithJSON] at hput
    rw [hpost] at hput
    rcases List.mem_append.1 hput with hm | hm
    · simp [afterUpdate, afterPut, afterRemux, afterCopy, afterCreate, Exec.log,
        Exec.addObject, Exec.setVideos, Exec.setFiles] at hm
      exact ⟨hm.1, hm.2.1, hm.2.2.2⟩
    · obtain ⟨b1, k1, t1, h1⟩ := hq _ hm
      simp at h1
  obtain ⟨rfl, rfl, rfl⟩ := hkey
  have hloc := dbVideoToSignedVideo_locator c
    (locatorRecord cfg video (objectKey c "video/mp4" tempName))
    (afterUpdate cfg video "video/mp4" (objectKey c "video/mp4" tempName)
      (afterRemux c tempName (afterCreate w tempName)))
    cfg.s3Bucket (objectKey c "video/mp4" tempName) hB hK rfl
  refine ⟨rfl, rfl, ?_⟩
  cases hp : c.presign cfg.s3Bucket (objectKey c "video/mp4" tempName) (5 * timeMinute) with
  | none =>
    rw [hloc, hp] at hs1
    simp at hs1
  | some url =>
    rw [hloc, hp] at hs1
    simp only [Prod.mk.injEq, and_true] at hs1
    refine ⟨locatorRecord cfg video (objectKey c "video/mp4" tempName), url, rfl, ?_, ?_, rfl,
      ?_, ?_⟩
    · rw [hloc, hp]
      simp [respondWithJSON, afterUpdate, afterPut, Exec.log, Exec.addObject, Exec.setVideos]
    · rw [hloc, hp]
      simp only [respondWithJSON, afterUpdate, afterPut, afterRemux, afterCopy, afterCreate,
        Exec.log, Exec.addObject, Exec.setVideos, Exec.setFiles]
      exact List.mem_map.2 ⟨video, mem_of_GetVideo _ _ _ hget, by simp⟩
    · intro b1 k1 t1
      rw [hloc, hp]
      simp [respondWithJSON, afterUpdate, afterPut, afterRemux, afterCopy, afterCreate,
        Exec.log, Exec.addObject, Exec.setVideos, Exec.setFiles]
    · rw [← hs1]

/-- C7 amended at the sample run: bucket "tubely-media", key "landscape/q83z.mp4". -/
theorem handlerUploadVideo_success_locator_witness :
    ∃ stored url,
      stored.VideoURL = some ("tubely-media" ++ "," ++ "landscape/q83z.mp4") ∧
      Event.updateVideo stored ∈
        (handlerUploadVideo sampleConfig sampleRequest sampleCollab sampleWorld).trace ∧
      stored ∈
        (handlerUploadVideo sampleConfig sampleRequest sampleCollab sampleWorld).world.videos ∧
      sampleCollab.presign "tubely-media" "landscape/q83z.mp4" (5 * timeMinute) = some url ∧
      (∀ b1 k1 t1, Event.presign b1 k1 t1 ∈
          (handlerUploadVideo sampleConfig sampleRequest sampleCollab sampleWorld).trace ↔
        (b1 = "tubely-media" ∧ k1 = "landscape/q83z.mp4" ∧ t1 = 5 * timeMinute)) ∧
      { sampleVideo with
          VideoURL := some "https://tubely-media.s3.example/landscape/q83z.mp4?sig" } =
        { stored with VideoURL := some url } :=
  (handlerUploadVideo_success_locator sampleConfig sampleRequest sampleCollab sampleWorld
    { sampleVideo with
        VideoURL := some "https://tubely-media.s3.example/landscape/q83z.mp4?sig" }
    "tubely-media" "landscape/q83z.mp4" "video/mp4" true
    (by decide) (by decide) (by decide) (by decide)).2.2

/-! ## Theorems: temporary files -/

theorem lookup_cons_ne (fs : Files) (a other : String) (n : Nat) (h : other ≠ a) :
    List.lookup other ((a, n) :: fs) = List.lookup other fs := by
  have hne : (other == a) = false := by simpa using h
  simp [List.lookup, hne]

theorem lookup_cons_self (fs : Files) (a : String) (n : Nat) :
    List.lookup a ((a, n) :: fs) = some n := by
  simp [List.lookup]

theorem fileExists_osRemove_self (fs : Files) (path : String) :
    fileExists (osRemove fs path) path = false := by
  induction fs with
  | nil => rfl
  | cons f fs ih =>
    rcases f with ⟨a, n⟩
    simp only [fileExists, osStat, osRemove] at ih ⊢
    by_cases hf : a = path
    · rw [List.filter_cons_of_neg (by simp [hf])]
      exact ih
    · rw [List.filter_cons_of_pos (by simp [hf]), lookup_cons_ne _ _ _ _ (Ne.symm hf)]
      exact ih

theorem fileExists_osRemove_other (fs : Files) (path other : String) (h : other ≠ path) :
    fileExists (osRemove fs path) other = fileExists fs other := by
  induction fs with
  | nil => rfl
  | cons f fs ih =>
    rcases f with ⟨a, n⟩
    simp only [fileExists, osStat, osRemove] at ih ⊢
    by_cases hf : a = path
    · have ho : other ≠ a := fun h1 => h (h1.trans hf)
      rw [List.filter_cons_of_neg (by simp [hf]), lookup_cons_ne _ _ _ _ ho]
      exact ih
    · rw [List.filter_cons_of_pos (by simp [hf])]
      by_cases ho : other = a
      · subst ho
        rw [lookup_cons_self, lookup_cons_self]
      · rw [lookup_cons_ne _ _ _ _ ho, lookup_cons_ne _ _ _ _ ho]
        exact ih

theorem processing_path_ne (path : String) : path ++ ".processing" ≠ path := by
  intro h
  have hl := congrArg String.length h
  rw [String.length_append] at hl
  have : (".processing" : String).length = 11 := by decide
  omega

/-- The staged file never outlives the request: either the handler turned the request
down before staging and left the world as it was, or the file `os.CreateTemp` created is
absent when the handler returns. -/
theorem handlerUploadVideo_staged_file_removed (cfg : ApiConfig) (r : Request) (c : Collab)
    (w : World) :
    (handlerUploadVideo cfg r c w).world = w ∨
    ∃ tempName, c.createTemp = some tempName ∧
      fileExists (handlerUploadVideo cfg r c w).world.files tempName = false := by
  rcases handlerUploadVideo_cases cfg r c w with
    ⟨code, msg, tr, -, hR⟩ | ⟨videoID, token, video, file, tempName, -, -, -, -, -, -, ht, hR⟩
  · exact Or.inl (by rw [hR])
  · refine Or.inr ⟨tempName, ht, ?_⟩
    rw [hR]
    simp only [Exec.setFiles]
    exact fileExists_osRemove_self _ _

theorem processVideoForFastStart_zero_byte (ffmpeg : String → RemuxRun)
    (inputFilePath : String) (fs : Files) (h : (ffmpeg inputFilePath).output = some 0) :
    (processVideoForFastStart ffmpeg inputFilePath fs).1.2 ≠ none ∧
    (processVideoForFastStart ffmpeg inputFilePath fs).1.1 = "" := by
  unfold processVideoForFastStart
  cases hx : (ffmpeg inputFilePath).exitOk
  · simp [hx]
  · simp [hx, runFfmpeg, h, osStat_writeFile]

/-- When the remux step fails after the tool has left a file at `<staged>.processing`
(non-zero exit, or zero exit with a zero-byte file), that file still exists when
`ingestStaged` returns, and the deferred removal of the staged file does not remove it. -/
theorem ingestStaged_processing_file_left (cfg : ApiConfig) (c : Collab) (video : Video)
    (mediaType tempName : String) (e : Exec) (n : Nat)
    (h1 : c.seekOk = true) (h2 : (getVideoAspectRatio c.ffprobe tempName).2 = none)
    (h3 : (c.ffmpeg tempName).output = some n)
    (h4 : (c.ffmpeg tempName).exitOk = false ∨ n = 0) :
    fileExists
      (osRemove (ingestStaged cfg c video mediaType tempName e).world.files tempName)
      (tempName ++ ".processing") = true := by
  have hfs : (processVideoForFastStart c.ffmpeg tempName
      (afterCopy c tempName e).world.files).2 =
      writeFile (afterCopy c tempName e).world.files (tempName ++ ".processing") n := by
    unfold processVideoForFastStart
    simp only [runFfmpeg, h3]
    split
    · rfl
    · split
      · rfl
      · split <;> rfl
  have herr : (processVideoForFastStart c.ffmpeg tempName
      (afterCopy c tempName e).world.files).1.2 ≠ none := by
    rcases h4 with h4 | h4
    · simp [processVideoForFastStart, h4]
    · subst h4
      exact (processVideoForFastStart_zero_byte c.ffmpeg tempName _ h3).1
  rw [ingestStaged_remux_fail cfg c video mediaType tempName e h1 h2 herr]
  rw [fileExists_osRemove_other _ _ _ (processing_path_ne tempName)]
  simp only [respondWithError, afterRemux, Exec.setFiles, hfs]
  simp [fileExists, osStat_writeFile]

theorem processVideoForFastStart_path (ffmpeg : String → RemuxRun)
    (inputFilePath : String) (fs : Files)
    (h : (processVideoForFastStart ffmpeg inputFilePath fs).1.2 = none) :
    (processVideoForFastStart ffmpeg inputFilePath fs).1.1 = inputFilePath ++ ".processing" := by
  unfold processVideoForFastStart at h ⊢
  cases hx : (ffmpeg inputFilePath).exitOk
  · simp [hx] at h
  · cases hs : osStat (runFfmpeg (ffmpeg inputFilePath) (inputFilePath ++ ".processing") fs)
        (inputFilePath ++ ".processing") with
    | none => simp [hx, hs] at h
    | some size =>
      by_cases hz : size = 0
      · simp [hx, hs, hz] at h
      · simp [hx, hs, hz]

/-- When the remux step succeeds, both temporary files are absent once the two deferred
removals have run, whatever happens while publishing. -/
theorem ingestStaged_remuxed_files_removed (cfg : ApiConfig) (c : Collab) (video : Video)
    (mediaType tempName : String) (e : Exec)
    (h1 : c.seekOk = true) (h2 : (getVideoAspectRatio c.ffprobe tempName).2 = none)
    (h3 : (processVideoForFastStart c.ffmpeg tempName
      (afterCopy c tempName e).world.files).1.2 = none) :
    fileExists
      (osRemove (ingestStaged cfg c video mediaType tempName e).world.files tempName)
      tempName = false ∧
    fileExists
      (osRemove (ingestStaged cfg c video mediaType tempName e).world.files tempName)
      (tempName ++ ".processing") = false := by
  refine ⟨fileExists_osRemove_self _ _, ?_⟩
  rw [fileExists_osRemove_other _ _ _ (processing_path_ne tempName)]
  rw [ingestStaged_remuxed cfg c video mediaType tempName e h1 h2 h3]
  rw [processVideoForFastStart_path c.ffmpeg tempName _ h3]
  simp only [Exec.setFiles]
  exact fileExists_osRemove_self _ _

/-- C3 fails on the code: in the sample run where the remux tool exits zero and leaves a
zero-byte file, and in the one where it exits non-zero after writing three bytes, the
handler answers 500 and the file "/tmp/tubely-upload.mp4123.processing", which did not
exist before the request, exists when the handler returns. -/
theorem handlerUploadVideo_processing_file_left :
    fileExists sampleWorld.files "/tmp/tubely-upload.mp4123.processing" = false ∧
    (handlerUploadVideo sampleConfig sampleRequest
        { sampleCollab with ffmpeg := fun _ => { exitOk := true, output := some 0 } }
        sampleWorld).responses = [Response.error 500 "Error processing video"] ∧
    fileExists
      (handlerUploadVideo sampleConfig sampleRequest
        { sampleCollab with ffmpeg := fun _ => { exitOk := true, output := some 0 } }
        sampleWorld).world.files "/tmp/tubely-upload.mp4123.processing" = true ∧
    (handlerUploadVideo sampleConfig sampleRequest
        { sampleCollab with ffmpeg := fun _ => { exitOk := false, output := some 3 } }
        sampleWorld).responses = [Response.error 500 "Error processing video"] ∧
    fileExists
      (handlerUploadVideo sampleConfig sampleRequest
        { sampleCollab with ffmpeg := fun _ => { exitOk := false, output := some 3 } }
        sampleWorld).world.files "/tmp/tubely-upload.mp4123.processing" = true := by
  decide

/-! ## Theorems: the unchecked copy -/

/-- The error result of `io.Copy` has no influence on a run of `handlerUploadVideo`. -/
theorem handlerUploadVideo_copy_error_ignored (cfg : ApiConfig) (r : Request) (c : Collab)
    (w : World) :
    handlerUploadVideo cfg r { c with copy := (c.copy.1, false) } w =
      handlerUploadVideo cfg r { c with copy := (c.copy.1, true) } w :=
  rfl

/-- C6 fails on the code: in the sample run where `io.Copy` fails after writing nothing,
the handler still runs the probe, the remux, the put and the update, and answers 200. -/
theorem handlerUploadVideo_copy_failure_continues :
    (handlerUploadVideo sampleConfig sampleRequest { sampleCollab with copy := (0, false) }
        sampleWorld).responses =
      [Response.json 200
        { sampleVideo with
            VideoURL := some "https://tubely-media.s3.example/landscape/q83z.mp4?sig" }] ∧
    (handlerUploadVideo sampleConfig sampleRequest { sampleCollab with copy := (0, false) }
        sampleWorld).trace =
      [Event.createTemp (some "/tmp/tubely-upload.mp4123"),
       Event.copy "/tmp/tubely-upload.mp4123",
       Event.ffprobe "/tmp/tubely-upload.mp4123",
       Event.ffmpeg "/tmp/tubely-upload.mp4123",
       Event.putObject "tubely-media" "landscape/q83z.mp4" "video/mp4" true,
       Event.updateVideo
         { sampleVideo with VideoURL := some "tubely-media,landscape/q83z.mp4" },
       Event.presign "tubely-media" "landscape/q83z.mp4" (5 * timeMinute)] := by
  decide

/-! ## Theorems: thumbnail upload -/

/-- Whenever the lookup of the record fails in `handlerUploadThumbnail`, the handler
writes the lookup error and then a second response. -/
theorem handlerUploadThumbnail_lookup_failure_two_responses (cfg : ApiConfig) (r : Request)
    (c : Collab) (w : World) (videoID : UUID) (token : String) (userID : UUID)
    (file : FormFile)
    (hid : r.videoID = some videoID) (htok : r.bearerToken = some token)
    (hjwt : c.validateJWT token cfg.jwtSecret = some userID)
    (hfile : r.formFile "thumbnail" = some file) (hread : c.readAllOk = true)
    (hget : (GetVideo w.videos videoID).2 ≠ none) :
    ∃ second,
      (handlerUploadThumbnail cfg r c w).responses =
        [Response.error 400 "Couldn't get video from data", second] := by
  rcases hg : GetVideo w.videos videoID with ⟨metaData, _ | err⟩
  · simp [hg] at hget
  by_cases hu : userID = metaData.UserID
  · cases hup : c.updateOk
    · exact ⟨Response.error 400 "Couldn't update video",
        by simp [handlerUploadThumbnail, hid, htok, hjwt, hfile, hread, hg, hu, hup,
          UpdateVideo, respondWithError, Exec.log]⟩
    · exact ⟨Response.json 200
          { metaData with
              ThumbnailURL := some ("http://localhost:" ++ cfg.port ++ "/api/thumbnails/" ++
                videoID) },
        by simp [handlerUploadThumbnail, hid, htok, hjwt, hfile, hread, hg, hu, hup,
          UpdateVideo, respondWithError, respondWithJSON, Exec.log, Exec.setVideos]⟩
  · exact ⟨Response.error 401 "User doesn't own the video",
      by simp [handlerUploadThumbnail, hid, htok, hjwt, hfile, hread, hg, hu,
        respondWithError]⟩

/-- C10 fails on the code: for a video id without a record, a request authenticated as
the all-zero UUID gets the lookup error followed by a 200 response, the thumbnail is
stored and `UpdateVideo` is called; a request authenticated as any other user gets two
error responses. -/
theorem handlerUploadThumbnail_lookup_failure_continues :
    (GetVideo sampleWorld.videos "0b7e9d11-0000-4000-8000-0000000000bb").2 ≠ none ∧
    handlerUploadThumbnail sampleConfig unknownVideoRequest
        { sampleCollab with validateJWT := fun _ _ => some uuidNil } sampleWorld =
      { world :=
          { sampleWorld with
              videoThumbnails :=
                [("0b7e9d11-0000-4000-8000-0000000000bb",
                  { data := [137, 80], mediaType := "image/png" })] }
        responses :=
          [Response.error 400 "Couldn't get video from data",
           Response.json 200
             { Video.zero with
                 ThumbnailURL := some
                   "http://localhost:8091/api/thumbnails/0b7e9d11-0000-4000-8000-0000000000bb" }]
        trace :=
          [Event.storeThumbnail "0b7e9d11-0000-4000-8000-0000000000bb",
           Event.updateVideo
             { Video.zero with
                 ThumbnailURL := some
                   "http://localhost:8091/api/thumbnails/0b7e9d11-0000-4000-8000-0000000000bb" }] } ∧
    (handlerUploadThumbnail sampleConfig unknownVideoRequest sampleCollab sampleWorld).responses =
      [Response.error 400 "Couldn't get video from data",
       Response.error 401 "User doesn't own the video"] := by
  decide

end Tubely
